import Mathlib

set_option maxRecDepth 8000

namespace KPI

/-!
Shallow embedding of the two conversion scripts of the BH25-metrics
repository: `sheet_to_base_ttl.py` (instance builder) and
`sheet_to_ttl.py` (ontology builder).  Spreadsheet cells are modelled by
`CellValue`, RDF nodes and triples by `Node` and `Triple`, and each
Python helper and row-processing block by a Lean function of the same
name wherever possible.
-/

/-! ### Python string primitives -/

/-- ASCII whitespace test used by the embedding of `str.strip()`. -/
def isPyWs (c : Char) : Bool := c = ' ' || c = '\t' || c = '\n' || c = '\r'

def trimL (l : List Char) : List Char :=
  ((l.dropWhile isPyWs).reverse.dropWhile isPyWs).reverse

/-- Embedding of Python `str.strip()` (ASCII whitespace). -/
def pyStrip (s : String) : String := ⟨trimL s.data⟩

/-- Embedding of Python `str.lower()` (ASCII case folding). -/
def pyLower (s : String) : String := ⟨s.data.map Char.toLower⟩

/-- Embedding of Python `str.capitalize()`: first character upper-cased,
the rest lower-cased. -/
def pyCapitalize (s : String) : String :=
  match s.data with
  | [] => ⟨[]⟩
  | c :: cs => ⟨c.toUpper :: cs.map Char.toLower⟩

/-- Fuelled worker for `str.replace`: replaces non-overlapping
occurrences of `pat` left to right.  The fuel is the length of the
input, which suffices because every step consumes at least one
character. -/
def pyRepAux : Nat → List Char → List Char → List Char → List Char
  | 0, _, _, l => l
  | _, _, _, [] => []
  | fuel+1, pat, rep, c :: cs =>
    if pat ≠ [] ∧ pat.isPrefixOf (c :: cs) then
      rep ++ pyRepAux fuel pat rep (cs.drop (pat.length - 1))
    else
      c :: pyRepAux fuel pat rep cs

/-- Embedding of Python `s.replace(pat, rep)` for non-empty `pat`. -/
def pyReplace (s pat rep : String) : String :=
  ⟨pyRepAux s.data.length pat.data rep.data s.data⟩

/-- Split a character list at every separator character (Python
`str.split(sep)` for a single-character separator: empty fields are
kept). -/
def splitOnPred (p : Char → Bool) : List Char → List (List Char)
  | [] => [[]]
  | c :: cs =>
    match splitOnPred p cs with
    | [] => [[]]
    | grp :: grps => if p c then [] :: grp :: grps else (c :: grp) :: grps

/-- Embedding of Python `s.split(",")` and friends. -/
def pySplit (s : String) (sep : Char) : List String :=
  (splitOnPred (fun c => c = sep) s.data).map (fun l => ⟨l⟩)

/-- Embedding of Python `pre in s` via `str.startswith`. -/
def pyStartsWith (s pre : String) : Bool := pre.data.isPrefixOf s.data

/-- Embedding of Python `needle in hay` (substring containment). -/
def pyContains (hay needle : String) : Bool :=
  hay.data.tails.any (fun t => needle.data.isPrefixOf t)

/-- Replace every maximal run of non-kept characters by a single
underscore (`re.sub(r"[^...]+", "_", s)`).  The boolean records whether
the previous character was part of a replaced run. -/
def subRuns (keep : Char → Bool) : List Char → Bool → List Char
  | [], _ => []
  | c :: cs, inRun =>
    if keep c then c :: subRuns keep cs false
    else if inRun then subRuns keep cs true
    else '_' :: subRuns keep cs true

def isSlugChar (c : Char) : Bool :=
  ('a' ≤ c && c ≤ 'z') || ('0' ≤ c && c ≤ '9')

def isAlnumAscii (c : Char) : Bool :=
  ('a' ≤ c && c ≤ 'z') || ('A' ≤ c && c ≤ 'Z') || ('0' ≤ c && c ≤ '9')

/-- `slug` from `sheet_to_base_ttl.py`:
`re.sub(r"[^a-z0-9]+","_",str(s).strip().lower()).strip("_")`. -/
def slug (s : String) : String :=
  let t := pyLower (pyStrip s)
  ⟨(((subRuns isSlugChar t.data false).dropWhile (fun c => c = '_')).reverse.dropWhile
      (fun c => c = '_')).reverse⟩

def capitalizeL (l : List Char) : List Char :=
  match l with
  | [] => []
  | c :: cs => c.toUpper :: cs.map Char.toLower

/-- `slugcamel` from `sheet_to_base_ttl.py`: split on runs of
non-alphanumeric characters, capitalize each non-empty part,
concatenate. -/
def slugcamel (s : String) : String :=
  ⟨(((splitOnPred (fun c => !isAlnumAscii c) (trimL s.data)).filter
      (fun l => l ≠ [])).map capitalizeL).flatten⟩

/-! ### Pandas cell values and Python dynamic behaviour -/

/-- A spreadsheet cell as seen by the scripts: Python `None` (missing
key), a pandas `NaN` (missing cell), or a string. -/
inductive CellValue where
  | vNone
  | vNaN
  | vStr (s : String)
deriving DecidableEq

/-- Python `str(v)`. -/
def pyStr : CellValue → String
  | .vNone => "None"
  | .vNaN => "nan"
  | .vStr s => s

/-- `pd.isna(v)`: true exactly for `None` and `NaN`. -/
def isna : CellValue → Bool
  | .vStr _ => false
  | _ => true

/-- Python truthiness of a cell: `None` is falsy, `NaN` is truthy,
a string is truthy iff non-empty. -/
def truthy : CellValue → Bool
  | .vNone => false
  | .vNaN => true
  | .vStr s => s ≠ ""

/-- `row.get(key, default)`: the default replaces a missing key
(`vNone`), never a `NaN` cell. -/
def rowGetD (v d : CellValue) : CellValue := if v = .vNone then d else v

/-- Exceptions the scripts can raise while processing a row. -/
inductive PyErr where
  | attributeError
  | keyError
deriving DecidableEq

/-- Python `v.replace(pat, rep)`: only string values have the
`replace` attribute; `None` and `NaN` raise `AttributeError`. -/
def strReplaceCell (v : CellValue) (pat rep : String) : Except PyErr String :=
  match v with
  | .vStr s => .ok (pyReplace s pat rep)
  | _ => .error .attributeError

/-- The row shape of the KPI spreadsheet (one field per column the
scripts read). -/
structure Row where
  indicator : CellValue
  description : CellValue
  exampleCol : CellValue
  typeOfIndicator : CellValue
  serviceCategory : CellValue
  mandatory : CellValue
  measurement : CellValue
  automation : CellValue
  targetGroup : CellValue
  link : CellValue
  indicatorSet : CellValue
  source : CellValue
deriving DecidableEq

/-- A row with every cell missing (`NaN`), for building concrete rows. -/
def blankRow : Row :=
  ⟨.vNaN, .vNaN, .vNaN, .vNaN, .vNaN, .vNaN, .vNaN, .vNaN, .vNaN, .vNaN, .vNaN, .vNaN⟩

/-! ### RDF model -/

/-- An RDF node: a URI reference or a literal (lexical form, optional
language tag, optional datatype URI). -/
inductive Node where
  | uri (u : String)
  | lit (s : String) (lang : Option String) (dt : Option String)
deriving DecidableEq

structure Triple where
  subj : String
  pred : String
  obj : Node
deriving DecidableEq

deriving instance DecidableEq for Except

/-! ### Vocabulary URIs -/

def rdfType : String := "http://www.w3.org/1999/02/22-rdf-syntax-ns#type"
def rdfProperty : String := "http://www.w3.org/1999/02/22-rdf-syntax-ns#Property"
def rdfsLabel : String := "http://www.w3.org/2000/01/rdf-schema#label"
def rdfsComment : String := "http://www.w3.org/2000/01/rdf-schema#comment"
def rdfsClass : String := "http://www.w3.org/2000/01/rdf-schema#Class"
def rdfsSeeAlso : String := "http://www.w3.org/2000/01/rdf-schema#seeAlso"
def dct : String := "http://purl.org/dc/terms/"
def xsdBoolean : String := "http://www.w3.org/2001/XMLSchema#boolean"
def xsdDate : String := "http://www.w3.org/2001/XMLSchema#date"
def xsdAnyURI : String := "http://www.w3.org/2001/XMLSchema#anyURI"
def foafAgent : String := "http://xmlns.com/foaf/0.1/Agent"
def foafGroup : String := "http://xmlns.com/foaf/0.1/Group"
def owlOntology : String := "http://www.w3.org/2002/07/owl#Ontology"
def owlImports : String := "http://www.w3.org/2002/07/owl#imports"
def owlVersionInfo : String := "http://www.w3.org/2002/07/owl#versionInfo"
def patoNs : String := "http://purl.obolibrary.org/obo/PATO_"

/-- Default RIMO namespace of the instance builder (used when the base
file binds no `rimo` prefix). -/
def rimoDefault : String := "https://w3id.org/RIMO#"

/-! ### Instance builder (`sheet_to_base_ttl.py`) -/

/-- Ontology IRI asserted by the data file (`ONTO`). -/
def ontoIri : String := "http://w3id.org/RIMO"

/-- Subject of the data-file metadata (`DATA_ONTO`). -/
def dataOnto : String := "http://w3id.org/RIMOkpi"

/-- The data graph right after start-up: the base graph is parsed only
to copy prefix bindings, so none of its triples enter `data`; the three
ontology-metadata triples are then added. -/
def initialData (_base : List Triple) : List Triple :=
  [⟨dataOnto, rdfType, .uri owlOntology⟩,
   ⟨dataOnto, owlImports, .uri ontoIri⟩,
   ⟨dataOnto, dct ++ "title", .lit "RIMO KPI Instances" (some "en") none⟩]

/-- Truthiness of the `dt` / `lang` arguments of `lit` (URIRefs and
language tags are falsy exactly when absent or empty). -/
def optTruthy : Option String → Bool
  | none => false
  | some d => d ≠ ""

def sentinels : List String := ["nan", "na", "<na>", "none"]

/-- `lit` from `sheet_to_base_ttl.py`. -/
def lit (v : CellValue) (lang : Option String) (dt : Option String) : Option Node :=
  if v = .vNone || pyStrip (pyStr v) = "" || isna v then none
  else if !optTruthy dt then
    let s := pyStrip (pyStr v)
    if s = "" || sentinels.contains (pyLower s) then none
    else some (.lit s lang none)
  else
    if dt = none && optTruthy lang then some (.lit (pyStr v) lang none)
    else if optTruthy dt then some (.lit (pyStr v) none dt)
    else some (.lit (pyStr v) none none)

/-- `toolcat` from `sheet_to_base_ttl.py`, parameterised by the RIMO
namespace and by the graph it consults (`data`). -/
def toolcat (ns : String) (g : List Triple) (v : CellValue) : Option (List String) :=
  match v with
  | .vStr s0 =>
    let sc := pyStrip s0
    let toolUri := ns ++ pyReplace sc " " "_"
    if (⟨toolUri, rdfType, .uri (ns ++ "ServiceCategory")⟩ : Triple) ∈ g then
      some [toolUri]
    else if sc = "Web applications" then some [ns ++ "Web_application"]
    else if sc = "Database" then some [ns ++ "Database_portal"]
    else if sc = "Libraries / APIs" then some [ns ++ "Library", ns ++ "Web_API"]
    else if sc = "Support / Consulting" then some [ns ++ "Helpdesk"]
    else if sc = "Tools/ Applications" then some [ns ++ "Desktop_application"]
    else if sc = "Workflows / pipelines" then some [ns ++ "Workflow"]
    else none
  | _ => none

/-- The trimmed indicator name: `str(row.get("Indicator","")).strip()`. -/
def nameOfRow (row : Row) : String :=
  pyStrip (pyStr (rowGetD row.indicator (.vStr "")))

/-- KPI subject of the instance builder: `RIMO[slugcamel(name)]`. -/
def kpiUriBase (ns : String) (row : Row) : String :=
  ns ++ slugcamel (nameOfRow row)

/-- Description triple from the (already `\n`-replaced) description
text: second `replace` plus `lit(..., lang="en")`. -/
def descTriples (ns kpi : String) (d0 : String) : List Triple :=
  match lit (.vStr (pyReplace d0 "  " " ")) (some "en") none with
  | some l => [⟨kpi, ns ++ "description", l⟩]
  | none => []

/-- `if row.get("Example"): ...` block. -/
def exampleTriples (ns kpi : String) (row : Row) : List Triple :=
  if truthy row.exampleCol then
    match lit row.exampleCol (some "en") none with
    | some l => [⟨kpi, ns ++ "example", l⟩]
    | none => []
  else []

/-- Qualitative/quantitative flag block. -/
def qualTriples (ns kpi : String) (row : Row) : List Triple :=
  let t := pyLower (pyStr (rowGetD row.typeOfIndicator (.vStr "")))
  if pyContains t "qualit" then
    [⟨kpi, ns ++ "isQualitativeIndicator", .lit "true" none (some xsdBoolean)⟩]
  else if pyContains t "quant" then
    [⟨kpi, ns ++ "isQualitativeIndicator", .lit "false" none (some xsdBoolean)⟩]
  else []

/-- The trimmed lower-cased Mandatory cell:
`str(row.get("Mandatory","")).strip().lower()`. -/
def mandOfRow (row : Row) : String :=
  pyLower (pyStrip (pyStr (rowGetD row.mandatory (.vStr ""))))

/-- Tool-category block: `appliedTo` plus the tri-state
`mandatoryFor`/`recommendedFor` decision, run once per mapped
category. -/
def categoryTriples (ns kpi : String) (g : List Triple) (row : Row) : List Triple :=
  match toolcat ns g row.serviceCategory with
  | none => []
  | some cats =>
    cats.flatMap (fun cat =>
      let mand := mandOfRow row
      ⟨kpi, ns ++ "appliedTo", .uri cat⟩ ::
      (if mand = "yes" ∨ mand = "true" ∨ mand = "1" then
        [⟨kpi, ns ++ "mandatoryFor", .uri cat⟩]
      else if mand = "no" ∨ mand = "false" ∨ mand = "0" then
        [⟨kpi, ns ++ "recommendedFor", .uri cat⟩]
      else []))

/-- Means-of-measurement block. -/
def meansTriples (ns kpi : String) (row : Row) : List Triple :=
  let means := pyStrip (pyStr (rowGetD row.measurement (.vStr "")))
  if means = "" then []
  else
    let mm := ns ++ "means/" ++ slugcamel means
    [⟨mm, rdfType, .uri (ns ++ "MeasurementMeans")⟩,
     ⟨mm, rdfsLabel, .lit means (some "en") none⟩,
     ⟨kpi, ns ++ "measuredBy", .uri mm⟩]

/-- Automation-tools block (comma-separated free text). -/
def autoTriples (ns kpi : String) (row : Row) : List Triple :=
  if isna row.automation then []
  else
    (pySplit (pyStr row.automation) ',').flatMap (fun tok =>
      let tool := pyStrip tok
      if tool = "" then []
      else
        let atUri := ns ++ "tool/" ++ slugcamel tool
        [⟨atUri, rdfType, .uri (ns ++ "AutomationTool")⟩,
         ⟨atUri, rdfsLabel, .lit tool none none⟩,
         ⟨kpi, ns ++ "canBeAutomatedBy", .uri atUri⟩])

/-- Requester block: `str(row.get("Target Group") or "").split(",")`. -/
def agentTriples (ns kpi : String) (row : Row) : List Triple :=
  let base := if truthy row.targetGroup then pyStr row.targetGroup else ""
  (pySplit base ',').flatMap (fun tok =>
    let tgt := pyStrip tok
    if tgt = "" then []
    else
      let ag := ns ++ "agent/" ++ slugcamel tgt
      [⟨ag, rdfType, .uri foafAgent⟩,
       ⟨ag, rdfsLabel, .lit tgt none none⟩,
       ⟨kpi, ns ++ "requestedBy", .uri ag⟩])

/-- Link block: `str(row.get("Link") or "")`, emitted as a
`dct:relation` resource only when it starts with "http". -/
def linkTriplesBase (kpi : String) (row : Row) : List Triple :=
  let link := if truthy row.link then pyStr row.link else ""
  if pyStartsWith link "http" then [⟨kpi, dct ++ "relation", .uri link⟩] else []

/-- One iteration of the row loop of `sheet_to_base_ttl.py` (after the
`n < 2` header skip): the triples it adds to `data`, or the exception
it raises. -/
def processRowBase (ns : String) (g : List Triple) (row : Row) :
    Except PyErr (List Triple) :=
  let name := nameOfRow row
  if name = "" then .ok []
  else
    let kpi := kpiUriBase ns row
    match strReplaceCell row.description "\n" " " with
    | .error e => .error e
    | .ok d0 =>
      .ok ([⟨kpi, rdfType, .uri (ns ++ "KPI")⟩,
            ⟨kpi, ns ++ "name", .lit name (some "en") none⟩]
        ++ descTriples ns kpi d0
        ++ exampleTriples ns kpi row
        ++ qualTriples ns kpi row
        ++ categoryTriples ns kpi g row
        ++ meansTriples ns kpi row
        ++ autoTriples ns kpi row
        ++ agentTriples ns kpi row
        ++ linkTriplesBase kpi row)

/-- The full row loop of the instance builder, threading the growing
`data` graph and the row index (rows 0 and 1 are skipped). -/
def iterrowsBase (ns : String) : List Triple → Nat → List Row → Except PyErr (List Triple)
  | _, _, [] => .ok []
  | g, n, r :: rs =>
    if n < 2 then iterrowsBase ns g (n + 1) rs
    else
      match processRowBase ns g r with
      | .error e => .error e
      | .ok ts =>
        match iterrowsBase ns (g ++ ts) (n + 1) rs with
        | .error e => .error e
        | .ok rest => .ok (ts ++ rest)

/-! ### Ontology builder (`sheet_to_ttl.py`) -/

/-- The `BASE` namespace of the ontology builder. -/
def BASEo : String := "https://w3id.org/RIMO/"

def ontologyUri : String := "https://w3id.org/RIMO"

/-- Ontology metadata block (lines 41-56). -/
def ontoMeta : List Triple :=
  [⟨ontologyUri, rdfType, .uri owlOntology⟩,
   ⟨ontologyUri, dct ++ "title",
     .lit "Research Infrastructure Monitoring Ontology (RIMO)" (some "en") none⟩,
   ⟨ontologyUri, dct ++ "description",
     .lit "An ontology for representing and harmonising Key Performance Indicators across research infrastructures \nand life science services. It defines classes and properties to describe indicators, measurement methods, relevance, \nand applicable service categories. Developed during the BioHackathon Europe 2025." (some "en") none⟩,
   ⟨ontologyUri, dct ++ "creator", .lit "Julia Koblitz (Leibniz Institute DSMZ)" (some "en") none⟩,
   ⟨ontologyUri, dct ++ "contributor", .lit "BioHackathon Europe 2025 KPI Monitoring Team" (some "en") none⟩,
   ⟨ontologyUri, dct ++ "issued", .lit "2025-11-05" none (some xsdDate)⟩,
   ⟨ontologyUri, dct ++ "license", .uri "https://creativecommons.org/licenses/by/4.0/"⟩,
   ⟨ontologyUri, owlVersionInfo, .lit "0.1.0" none none⟩,
   ⟨ontologyUri, dct ++ "language", .lit "en" none none⟩,
   ⟨ontologyUri, rdfsSeeAlso, .uri "https://github.com/elixir-europe/biohackathon-kpi"⟩]

/-- Class declarations for Indicator and ServiceCategory (lines 60-63). -/
def classTriples : List Triple :=
  [⟨BASEo ++ "Indicator", rdfType, .uri rdfsClass⟩,
   ⟨BASEo ++ "Indicator", rdfsLabel, .lit "KPI Indicator" (some "en") none⟩,
   ⟨BASEo ++ "ServiceCategory", rdfType, .uri rdfsClass⟩,
   ⟨BASEo ++ "ServiceCategory", rdfsLabel, .lit "Service Category" (some "en") none⟩]

/-- The fixed `tool_types` vocabulary (identical in both scripts). -/
def tool_types : List (String × String) :=
  [("Bioinformatics portal", "web site providing a platform/portal to multiple resources used for research in a focused area, including biological databases, web applications, training resources and so on."),
   ("Command-line tool", "A tool with a text-based (command-line) interface."),
   ("Database portal", "A Web application, suite or workbench providing a portal to a biological database."),
   ("Desktop application", "A tool with a graphical user interface that runs on your desktop environment, e.g. on a PC or mobile device."),
   ("Library", "A collection of components that are used to construct other tools. bio.tools scope includes component libraries performing high-level bioinformatics functions but excludes lower-level programming libraries."),
   ("Ontology", "A collection of information about concepts, including terms, synonyms, descriptions etc."),
   ("Plug-in", "A software component encapsulating a set of related functions, which are not standalone, i.e. depend upon other software for its use, e.g. a Javascript widget, or a plug-in, extension add-on etc. that extends the function of some existing tool."),
   ("Script", "A tool written for some run-time environment (e.g. other applications or an OS shell) that automates the execution of tasks. Often a small program written in a general-purpose languages (e.g. Perl, Python) or some domain-specific languages (e.g. sed)."),
   ("SPARQL endpoint", "A service that provides queries over an RDF knowledge base via the SPARQL query language and protocol, and returns results via HTTP."),
   ("Suite", "A collection of tools which are bundled together into a convenient toolkit. Such tools typically share related functionality, a common user interface and can exchange data conveniently. This includes collections of stand-alone command-line tools, or Web applications within a common portal."),
   ("Web application", "A tool with a graphical user interface that runs in your Web browser."),
   ("Web API", "An application programming interface (API) consisting of endpoints to a request-response message system accessible via HTTP. Includes everything from simple data-access URLs to RESTful APIs."),
   ("Web service", "An API described in a machine readable form (typically WSDL) providing programmatic access via SOAP over HTTP."),
   ("Workbench", "An application or suite with a graphical user interface, providing an integrated environment for data analysis which includes or may be extended with any number of functions or tools. Includes workflow systems, platforms, frameworks etc."),
   ("Workflow", "A set of tools which have been composed together into a pipeline of some sort. Such tools are (typically) standalone, but are composed for convenience, for instance for batch execution via some workflow engine or script."),
   ("Helpdesk", "A service providing assistance with the use of bioinformatics tools, data resources, or any other aspect of bioinformatics.")]

/-- ServiceCategory vocabulary triples (lines 85-89). -/
def toolTypeTriples : List Triple :=
  tool_types.flatMap (fun p =>
    let u := BASEo ++ pyReplace p.1 " " "_"
    [⟨u, rdfType, .uri (BASEo ++ "ServiceCategory")⟩,
     ⟨u, rdfsLabel, .lit p.1 (some "en") none⟩,
     ⟨u, rdfsComment, .lit p.2 (some "en") none⟩])

/-- The fixed `target_groups` vocabulary. -/
def target_groups : List (String × String) :=
  [("Funding Agency", "An organization that provides funding for research activities."),
   ("Service Provider", "An organization or individual that offers services to users or clients."),
   ("End User", "The individual or group that ultimately uses or is intended to use a product or service."),
   ("Network", "A group or system of interconnected people or organizations that collaborate or share resources."),
   ("Technical", "Individuals or teams responsible for the technical aspects of service delivery, including maintenance and support.")]

/-- Target-group vocabulary triples (lines 122-126). -/
def targetGroupTriples : List Triple :=
  target_groups.flatMap (fun p =>
    let u := BASEo ++ pyReplace p.1 " " "_"
    [⟨u, rdfType, .uri foafGroup⟩,
     ⟨u, rdfsLabel, .lit p.1 (some "en") none⟩,
     ⟨u, rdfsComment, .lit p.2 (some "en") none⟩])

/-- The fixed `automation_tools` vocabulary. -/
def automation_tools : List (String × String) :=
  [("Matomo", "An open-source web analytics platform."),
   ("Google Analytics", "A web analytics service offered by Google that tracks and reports website traffic."),
   ("Bioconductor", "An open-source software project for the analysis and comprehension of genomic data."),
   ("Galaxy", "An open, web-based platform for data-intensive biomedical research."),
   ("GitHub", "A web-based platform used for version control and collaborative software development."),
   ("Custom scripts", "User-defined scripts created for specific tasks or analyses."),
   ("OpenAlex", "An open catalog of the global research system, including publications, authors, institutions, and more.")]

/-- Automation-tool vocabulary triples (lines 151-155). -/
def automationToolTriples : List Triple :=
  automation_tools.flatMap (fun p =>
    let u := BASEo ++ pyReplace p.1 " " "_"
    [⟨u, rdfType, .uri foafAgent⟩,
     ⟨u, rdfsLabel, .lit p.1 (some "en") none⟩,
     ⟨u, rdfsComment, .lit p.2 (some "en") none⟩])

/-- The `properties` dictionary (property name to URI). -/
def properties : List (String × String) :=
  [("indicatorSet", BASEo ++ "indicatorSet"),
   ("description", BASEo ++ "description"),
   ("serviceCategory", BASEo ++ "serviceCategory"),
   ("valueType", BASEo ++ "valueType"),
   ("example", BASEo ++ "example"),
   ("targetGroup", BASEo ++ "targetGroup"),
   ("mandatory", BASEo ++ "mandatory"),
   ("measurement", BASEo ++ "measurement"),
   ("source", BASEo ++ "source"),
   ("automationTool", BASEo ++ "automationTool"),
   ("link", BASEo ++ "link")]

/-- `properties[property_name]` (every call site uses a present key). -/
def propU (name : String) : String := (properties.lookup name).getD ""

/-- Property declaration triples (lines 182-184). -/
def propertyTriples : List Triple :=
  properties.flatMap (fun p =>
    [⟨p.2, rdfType, .uri rdfProperty⟩,
     ⟨p.2, rdfsLabel, .lit (pyCapitalize (pyReplace p.1 "_" " ")) (some "en") none⟩])

/-- The graph `g` at the time the row loop starts: all static
vocabulary accumulated in source order. -/
def ontoStatic : List Triple :=
  ontoMeta ++ classTriples ++ toolTypeTriples ++ targetGroupTriples
    ++ automationToolTriples ++ propertyTriples

/-- `mapToolType` from `sheet_to_ttl.py`, parameterised by the graph
it consults (`g`). -/
def mapToolType (g : List Triple) (v : CellValue) : Option (List String) :=
  match v with
  | .vStr s0 =>
    let sc := pyStrip s0
    let toolUri := BASEo ++ pyReplace sc " " "_"
    if (⟨toolUri, rdfType, .uri (BASEo ++ "ServiceCategory")⟩ : Triple) ∈ g then
      some [toolUri]
    else if sc = "Web applications" then some [BASEo ++ "Web_application"]
    else if sc = "Database" then some [BASEo ++ "Database_portal"]
    else if sc = "Libraries / APIs" then some [BASEo ++ "Library", BASEo ++ "Web_API"]
    else if sc = "Support / Consulting" then some [BASEo ++ "Helpdesk"]
    else if sc = "Tools/ Applications" then some [BASEo ++ "Desktop_application"]
    else if sc = "Workflows / pipelines" then some [BASEo ++ "Workflow"]
    else none
  | _ => none

/-- `mapTargetGroup` from `sheet_to_ttl.py`. -/
def mapTargetGroup (g : List Triple) (v : CellValue) : Option (List String) :=
  match v with
  | .vStr s0 =>
    let groups := (pySplit s0 ',').flatMap (fun grp =>
      let grp := pyStrip grp
      let groupUri := BASEo ++ pyReplace grp " " "_"
      if (⟨groupUri, rdfType, .uri foafGroup⟩ : Triple) ∈ g then [groupUri] else [])
    if groups = [] then none else some groups
  | _ => none

/-- `mapAutomationTool` from `sheet_to_ttl.py`. -/
def mapAutomationTool (g : List Triple) (v : CellValue) : Option String :=
  match v with
  | .vStr s0 =>
    let toolUri := BASEo ++ pyReplace (pyStrip s0) " " "_"
    if (⟨toolUri, rdfType, .uri foafAgent⟩ : Triple) ∈ g then some toolUri else none
  | _ => none

/-- `add_literal` from `sheet_to_ttl.py`: adds one triple when the
value is non-NA and its string form is non-blank; typed when the
datatype argument is truthy, otherwise a plain literal. -/
def add_literal (kpi prop : String) (value : CellValue) (datatype : Option String) :
    List Triple :=
  if !isna value && pyStrip (pyStr value) ≠ "" then
    if optTruthy datatype then [⟨kpi, prop, .lit (pyStr value) none datatype⟩]
    else [⟨kpi, prop, .lit (pyStr value) none none⟩]
  else []

/-- `kpi_id` derivation of the ontology builder:
`row["Indicator"].strip().replace(" ", "_").replace("/", "_")`. -/
def kpi_id (ind : String) : String :=
  pyReplace (pyReplace (pyStrip ind) " " "_") "/" "_"

/-- KPI subject of the ontology builder for a row whose Indicator cell
holds the string `ind`. -/
def kpiUriOnto (ind : String) : String := BASEo ++ kpi_id ind

/-- Service-category block of the ontology builder (`if service:`). -/
def svcCatTriples (g : List Triple) (kpi : String) (row : Row) : List Triple :=
  match mapToolType g row.serviceCategory with
  | some svcs =>
    svcs.flatMap (fun svc => add_literal kpi (propU "serviceCategory") (.vStr svc) none)
  | none => []

/-- Target-group block of the ontology builder (`if tg:`). -/
def tgTriplesOnto (g : List Triple) (kpi : String) (row : Row) : List Triple :=
  match mapTargetGroup g row.targetGroup with
  | some gs =>
    gs.flatMap (fun grp => add_literal kpi (propU "targetGroup") (.vStr grp) none)
  | none => []

/-- Mandatory block of the ontology builder: boolean-typed exactly when
the lower-cased cell is in the list of the source. -/
def mandTriplesOnto (kpi : String) (row : Row) : List Triple :=
  add_literal kpi (propU "mandatory") row.mandatory
    (if pyLower (pyStr row.mandatory) = "true" ∨ pyLower (pyStr row.mandatory) = "yes"
        ∨ pyLower (pyStr row.mandatory) = "1" ∨ pyLower (pyStr row.mandatory) = "Yes"
     then some xsdBoolean else none)

/-- Automation block of the ontology builder. -/
def autoTriplesOnto (g : List Triple) (kpi : String) (row : Row) : List Triple :=
  if truthy row.automation then
    (pySplit (pyStr row.automation) ',').flatMap (fun tool =>
      match mapAutomationTool g (.vStr tool) with
      | some toolUri => [⟨kpi, propU "automationTool", .uri toolUri⟩]
      | none => [])
  else []

/-- Link block of the ontology builder: `xsd:anyURI`-typed exactly when
the string form of the cell starts with "http". -/
def linkTriplesOnto (kpi : String) (row : Row) : List Triple :=
  add_literal kpi (propU "link") row.link
    (if pyStartsWith (pyStr row.link) "http" then some xsdAnyURI else none)

/-- All triples one successful row iteration of `sheet_to_ttl.py` adds
(`ind` is the Indicator string, `desc` the already-replaced
Description). -/
def ontoRowTriples (g : List Triple) (row : Row) (ind desc : String) : List Triple :=
  let kpi := kpiUriOnto ind
  let val_type :=
    if row.typeOfIndicator = .vStr "Quantitative" then patoNs ++ "0103000"
    else patoNs ++ "0000068"
  [⟨kpi, rdfType, .uri (BASEo ++ "Indicator")⟩,
   ⟨kpi, rdfsLabel, .lit ind (some "en") none⟩]
    ++ add_literal kpi (propU "indicatorSet") row.indicatorSet none
    ++ add_literal kpi (propU "description") (.vStr desc) none
    ++ svcCatTriples g kpi row
    ++ add_literal kpi (propU "valueType") (.vStr val_type) none
    ++ add_literal kpi (propU "example") row.exampleCol none
    ++ tgTriplesOnto g kpi row
    ++ mandTriplesOnto kpi row
    ++ add_literal kpi (propU "measurement") row.measurement none
    ++ add_literal kpi (propU "source") row.source none
    ++ autoTriplesOnto g kpi row
    ++ linkTriplesOnto kpi row

/-- One iteration of the row loop of `sheet_to_ttl.py` (lines 191-249):
the triples it adds, or the exception it raises. -/
def processRowOnto (g : List Triple) (row : Row) : Except PyErr (List Triple) :=
  match row.indicator with
  | .vNone => .error .keyError
  | .vNaN => .error .attributeError
  | .vStr ind =>
    match strReplaceCell row.description "\n" " " with
    | .error e => .error e
    | .ok desc => .ok (ontoRowTriples g row ind desc)

/-- The full row loop of the ontology builder, threading the growing
graph `g` (rows 0 and 1 skipped). -/
def iterrowsOnto : List Triple → Nat → List Row → Except PyErr (List Triple)
  | _, _, [] => .ok []
  | g, n, r :: rs =>
    if n < 2 then iterrowsOnto g (n + 1) rs
    else
      match processRowOnto g r with
      | .error e => .error e
      | .ok ts =>
        match iterrowsOnto (g ++ ts) (n + 1) rs with
        | .error e => .error e
        | .ok rest => .ok (ts ++ rest)

/-! ### Concrete rows used by the witnesses and counterexamples -/

def rowTestKpi : Row := { blankRow with indicator := .vStr "Test KPI" }

def rowTestKpiLower : Row := { blankRow with indicator := .vStr "test kpi" }

def rowNoDesc : Row := { blankRow with indicator := .vStr "X", description := .vNaN }

def rowA : Row :=
  { blankRow with indicator := .vStr "A", description := .vStr "d", automation := .vStr "" }

def rowMeans : Row :=
  { blankRow with
      indicator := .vStr "X"
      description := .vStr "d"
      measurement := .vStr "Google Analytics"
      automation := .vStr ""
      targetGroup := .vStr "" }

/-- Triples the instance builder emits for `rowMeans` (evaluated). -/
def c2ts : List Triple :=
  [⟨rimoDefault ++ "X", rdfType, .uri (rimoDefault ++ "KPI")⟩,
   ⟨rimoDefault ++ "X", rimoDefault ++ "name", .lit "X" (some "en") none⟩,
   ⟨rimoDefault ++ "X", rimoDefault ++ "description", .lit "d" (some "en") none⟩,
   ⟨rimoDefault ++ "means/GoogleAnalytics", rdfType, .uri (rimoDefault ++ "MeasurementMeans")⟩,
   ⟨rimoDefault ++ "means/GoogleAnalytics", rdfsLabel, .lit "Google Analytics" (some "en") none⟩,
   ⟨rimoDefault ++ "X", rimoDefault ++ "measuredBy", .uri (rimoDefault ++ "means/GoogleAnalytics")⟩]

def rowBlankInd : Row :=
  { blankRow with
      indicator := .vStr "  "
      description := .vStr "A"
      automation := .vStr "" }

/-- Triples the ontology builder emits for `rowBlankInd` (evaluated):
the subject is the bare namespace (empty local name). -/
def c3out : List Triple :=
  [⟨BASEo, rdfType, .uri (BASEo ++ "Indicator")⟩,
   ⟨BASEo, rdfsLabel, .lit "  " (some "en") none⟩,
   ⟨BASEo, propU "description", .lit "A" none none⟩,
   ⟨BASEo, propU "valueType", .lit (patoNs ++ "0000068") none none⟩]

/-- The six legacy labels and their documented substitutes (the fixed
fallback table shared by `toolcat` and `mapToolType`), parameterised by
namespace. -/
def legacyTable (ns : String) : List (String × List String) :=
  [("Web applications", [ns ++ "Web_application"]),
   ("Database", [ns ++ "Database_portal"]),
   ("Libraries / APIs", [ns ++ "Library", ns ++ "Web_API"]),
   ("Support / Consulting", [ns ++ "Helpdesk"]),
   ("Tools/ Applications", [ns ++ "Desktop_application"]),
   ("Workflows / pipelines", [ns ++ "Workflow"])]

/-- A base-ontology graph declaring one ServiceCategory resource. -/
def demoBase : List Triple :=
  [⟨rimoDefault ++ "Foo", rdfType, .uri (rimoDefault ++ "ServiceCategory")⟩]

def rowC7 : Row :=
  { blankRow with
      indicator := .vStr "X"
      description := .vStr "d"
      serviceCategory := .vStr "Database"
      mandatory := .vStr "Yes"
      measurement := .vStr ""
      automation := .vStr ""
      targetGroup := .vStr ""
      link := .vStr "" }

/-- Triples the instance builder emits for `rowC7` (evaluated). -/
def c7ts : List Triple :=
  [⟨rimoDefault ++ "X", rdfType, .uri (rimoDefault ++ "KPI")⟩,
   ⟨rimoDefault ++ "X", rimoDefault ++ "name", .lit "X" (some "en") none⟩,
   ⟨rimoDefault ++ "X", rimoDefault ++ "description", .lit "d" (some "en") none⟩,
   ⟨rimoDefault ++ "X", rimoDefault ++ "appliedTo", .uri (rimoDefault ++ "Database_portal")⟩,
   ⟨rimoDefault ++ "X", rimoDefault ++ "mandatoryFor", .uri (rimoDefault ++ "Database_portal")⟩]

def rowC10 : Row :=
  { blankRow with
      indicator := .vStr "X"
      description := .vStr "d"
      serviceCategory := .vStr "Unknown"
      mandatory := .vStr "yes"
      measurement := .vStr ""
      automation := .vStr ""
      targetGroup := .vStr ""
      link := .vStr "" }

/-- Triples the instance builder emits for `rowC10` (evaluated): the
category mapping fails, so no category-dependent triples appear. -/
def c10ts : List Triple :=
  [⟨rimoDefault ++ "X", rdfType, .uri (rimoDefault ++ "KPI")⟩,
   ⟨rimoDefault ++ "X", rimoDefault ++ "name", .lit "X" (some "en") none⟩,
   ⟨rimoDefault ++ "X", rimoDefault ++ "description", .lit "d" (some "en") none⟩]

def rowLink : Row :=
  { blankRow with
      indicator := .vStr "X"
      description := .vStr "d"
      measurement := .vStr ""
      automation := .vStr ""
      targetGroup := .vStr ""
      link := .vStr "http://example.org" }

/-- Triples the instance builder emits for `rowLink` (evaluated). -/
def c8ts : List Triple :=
  [⟨rimoDefault ++ "X", rdfType, .uri (rimoDefault ++ "KPI")⟩,
   ⟨rimoDefault ++ "X", rimoDefault ++ "name", .lit "X" (some "en") none⟩,
   ⟨rimoDefault ++ "X", rimoDefault ++ "description", .lit "d" (some "en") none⟩,
   ⟨rimoDefault ++ "X", dct ++ "relation", .uri "http://example.org"⟩]

/-- Triples the ontology builder emits for `rowLink` (evaluated). -/
def c8tsOnto : List Triple :=
  [⟨BASEo ++ "X", rdfType, .uri (BASEo ++ "Indicator")⟩,
   ⟨BASEo ++ "X", rdfsLabel, .lit "X" (some "en") none⟩,
   ⟨BASEo ++ "X", propU "description", .lit "d" none none⟩,
   ⟨BASEo ++ "X", propU "valueType", .lit (patoNs ++ "0000068") none none⟩,
   ⟨BASEo ++ "X", propU "link", .lit "http://example.org" none (some xsdAnyURI)⟩]

/-- Like `rowLink` but with a non-empty Link value that does not start
with "http". -/
def rowLinkPlain : Row :=
  { blankRow with
      indicator := .vStr "X"
      description := .vStr "d"
      measurement := .vStr ""
      automation := .vStr ""
      targetGroup := .vStr ""
      link := .vStr "see docs" }

/-- Triples the ontology builder emits for `rowLinkPlain` (evaluated):
the non-http link value is stored as an untyped literal. -/
def c8tsOntoPlain : List Triple :=
  [⟨BASEo ++ "X", rdfType, .uri (BASEo ++ "Indicator")⟩,
   ⟨BASEo ++ "X", rdfsLabel, .lit "X" (some "en") none⟩,
   ⟨BASEo ++ "X", propU "description", .lit "d" none none⟩,
   ⟨BASEo ++ "X", propU "valueType", .lit (patoNs ++ "0000068") none none⟩,
   ⟨BASEo ++ "X", propU "link", .lit "see docs" none none⟩]

/-! ### Theorems -/

/-! Decomposition and localisation lemmas shared by several claims. -/

theorem processRowBase_blank (ns : String) (g : List Triple) (row : Row)
    (hname : nameOfRow row = "") : processRowBase ns g row = .ok [] := by
  unfold processRowBase
  rw [if_pos hname]

theorem processRowBase_ok_decomp (ns : String) (g : List Triple) (row : Row)
    (ts : List Triple) (h : processRowBase ns g row = .ok ts)
    (hname : nameOfRow row ≠ "") :
    ∃ d0, strReplaceCell row.description "\n" " " = .ok d0 ∧
      ts = [⟨kpiUriBase ns row, rdfType, .uri (ns ++ "KPI")⟩,
            ⟨kpiUriBase ns row, ns ++ "name", .lit (nameOfRow row) (some "en") none⟩]
        ++ descTriples ns (kpiUriBase ns row) d0
        ++ exampleTriples ns (kpiUriBase ns row) row
        ++ qualTriples ns (kpiUriBase ns row) row
        ++ categoryTriples ns (kpiUriBase ns row) g row
        ++ meansTriples ns (kpiUriBase ns row) row
        ++ autoTriples ns (kpiUriBase ns row) row
        ++ agentTriples ns (kpiUriBase ns row) row
        ++ linkTriplesBase (kpiUriBase ns row) row := by
  unfold processRowBase at h
  rw [if_neg hname] at h
  cases hd : strReplaceCell row.description "\n" " " with
  | error e => rw [hd] at h; cases h
  | ok d0 =>
    rw [hd] at h
    simp only [Except.ok.injEq] at h
    exact ⟨d0, rfl, h.symm⟩

theorem processRowOnto_ok_decomp (g : List Triple) (row : Row) (ts : List Triple)
    (h : processRowOnto g row = .ok ts) :
    ∃ ind d0, row.indicator = .vStr ind ∧
      strReplaceCell row.description "\n" " " = .ok d0 ∧
      ts = ontoRowTriples g row ind d0 := by
  cases hind : row.indicator with
  | vNone => unfold processRowOnto at h; rw [hind] at h; cases h
  | vNaN => unfold processRowOnto at h; rw [hind] at h; cases h
  | vStr ind =>
    unfold processRowOnto at h
    rw [hind] at h
    cases hd : strReplaceCell row.description "\n" " " with
    | error e => rw [hd] at h; cases h
    | ok d0 =>
      rw [hd] at h
      simp only [Except.ok.injEq] at h
      exact ⟨ind, d0, rfl, rfl, h.symm⟩

theorem descTriples_pred (ns kpi d0 : String) (t : Triple)
    (ht : t ∈ descTriples ns kpi d0) : t.pred = ns ++ "description" := by
  unfold descTriples at ht
  split at ht
  · simp only [List.mem_singleton] at ht; rw [ht]
  · cases ht

theorem exampleTriples_pred (ns kpi : String) (row : Row) (t : Triple)
    (ht : t ∈ exampleTriples ns kpi row) : t.pred = ns ++ "example" := by
  unfold exampleTriples at ht
  split at ht
  · split at ht
    · simp only [List.mem_singleton] at ht; rw [ht]
    · cases ht
  · cases ht

theorem qualTriples_pred (ns kpi : String) (row : Row) (t : Triple)
    (ht : t ∈ qualTriples ns kpi row) :
    t.pred = ns ++ "isQualitativeIndicator" := by
  unfold qualTriples at ht
  dsimp only at ht
  split at ht
  · simp only [List.mem_singleton] at ht; rw [ht]
  · split at ht
    · simp only [List.mem_singleton] at ht; rw [ht]
    · cases ht

theorem meansTriples_pred (ns kpi : String) (row : Row) (t : Triple)
    (ht : t ∈ meansTriples ns kpi row) :
    t.pred = rdfType ∨ t.pred = rdfsLabel ∨ t.pred = ns ++ "measuredBy" := by
  unfold meansTriples at ht
  dsimp only at ht
  split at ht
  · cases ht
  · simp only [List.mem_cons, List.not_mem_nil, or_false] at ht
    rcases ht with rfl | rfl | rfl <;> simp

theorem autoTriples_pred (ns kpi : String) (row : Row) (t : Triple)
    (ht : t ∈ autoTriples ns kpi row) :
    t.pred = rdfType ∨ t.pred = rdfsLabel ∨ t.pred = ns ++ "canBeAutomatedBy" := by
  unfold autoTriples at ht
  split at ht
  · cases ht
  · simp only [List.mem_flatMap] at ht
    obtain ⟨tok, _, ht⟩ := ht
    split at ht
    · cases ht
    · simp only [List.mem_cons, List.not_mem_nil, or_false] at ht
      rcases ht with rfl | rfl | rfl <;> simp

theorem agentTriples_pred (ns kpi : String) (row : Row) (t : Triple)
    (ht : t ∈ agentTriples ns kpi row) :
    t.pred = rdfType ∨ t.pred = rdfsLabel ∨ t.pred = ns ++ "requestedBy" := by
  unfold agentTriples at ht
  simp only [List.mem_flatMap] at ht
  obtain ⟨tok, _, ht⟩ := ht
  split at ht
  · cases ht
  · simp only [List.mem_cons, List.not_mem_nil, or_false] at ht
    rcases ht with rfl | rfl | rfl <;> simp

theorem linkTriplesBase_pred (kpi : String) (row : Row) (t : Triple)
    (ht : t ∈ linkTriplesBase kpi row) : t.pred = dct ++ "relation" := by
  unfold linkTriplesBase at ht
  dsimp only at ht
  repeat' split at ht
  all_goals
    first
      | (simp only [List.mem_singleton] at ht; rw [ht])
      | cases ht

theorem linkTriplesBase_empty (kpi : String) (row : Row)
    (h : pyStartsWith (if truthy row.link then pyStr row.link else "") "http" = false) :
    linkTriplesBase kpi row = [] := by
  unfold linkTriplesBase
  dsimp only
  simp [h]

theorem categoryTriples_none (ns kpi : String) (g : List Triple) (row : Row)
    (h : toolcat ns g row.serviceCategory = none) :
    categoryTriples ns kpi g row = [] := by
  unfold categoryTriples
  rw [h]

theorem categoryTriples_pred (ns kpi : String) (g : List Triple) (row : Row)
    (t : Triple) (ht : t ∈ categoryTriples ns kpi g row) :
    t.subj = kpi ∧
    (t.pred = ns ++ "appliedTo" ∨
     (t.pred = ns ++ "mandatoryFor" ∧
       (mandOfRow row = "yes" ∨ mandOfRow row = "true" ∨ mandOfRow row = "1")) ∨
     (t.pred = ns ++ "recommendedFor" ∧
       (mandOfRow row = "no" ∨ mandOfRow row = "false" ∨ mandOfRow row = "0"))) := by
  unfold categoryTriples at ht
  split at ht
  · cases ht
  · simp only [List.mem_flatMap] at ht
    obtain ⟨cat, _, ht⟩ := ht
    simp only [List.mem_cons] at ht
    rcases ht with rfl | ht
    · exact ⟨rfl, Or.inl rfl⟩
    · split at ht
      · simp only [List.mem_singleton] at ht
        subst ht
        exact ⟨rfl, Or.inr (Or.inl ⟨rfl, by assumption⟩)⟩
      · split at ht
        · simp only [List.mem_singleton] at ht
          subst ht
          exact ⟨rfl, Or.inr (Or.inr ⟨rfl, by assumption⟩)⟩
        · cases ht

theorem categoryTriples_mand_mem (ns kpi : String) (g : List Triple) (row : Row)
    (cats : List String) (cat : String)
    (hc : toolcat ns g row.serviceCategory = some cats) (hcat : cat ∈ cats)
    (hm : mandOfRow row = "yes" ∨ mandOfRow row = "true" ∨ mandOfRow row = "1") :
    (⟨kpi, ns ++ "mandatoryFor", .uri cat⟩ : Triple) ∈ categoryTriples ns kpi g row := by
  unfold categoryTriples
  rw [hc]
  simp only [List.mem_flatMap]
  refine ⟨cat, hcat, ?_⟩
  simp only [List.mem_cons]
  right
  rw [if_pos hm]
  simp

theorem categoryTriples_rec_mem (ns kpi : String) (g : List Triple) (row : Row)
    (cats : List String) (cat : String)
    (hc : toolcat ns g row.serviceCategory = some cats) (hcat : cat ∈ cats)
    (hm : mandOfRow row = "no" ∨ mandOfRow row = "false" ∨ mandOfRow row = "0") :
    (⟨kpi, ns ++ "recommendedFor", .uri cat⟩ : Triple) ∈ categoryTriples ns kpi g row := by
  unfold categoryTriples
  rw [hc]
  simp only [List.mem_flatMap]
  refine ⟨cat, hcat, ?_⟩
  simp only [List.mem_cons]
  right
  have hnotyes : ¬(mandOfRow row = "yes" ∨ mandOfRow row = "true" ∨ mandOfRow row = "1") := by
    rcases hm with hm | hm | hm <;> rw [hm] <;> decide
  rw [if_neg hnotyes, if_pos hm]
  simp

/-- Localisation of a triple of a successful instance-builder row at
the default namespace: its predicate is one of the fixed properties or
it comes from the category or link block. -/
theorem base_pred_localize (g : List Triple) (row : Row) (ts : List Triple)
    (h : processRowBase rimoDefault g row = .ok ts) (t : Triple) (ht : t ∈ ts) :
    t.pred = rdfType ∨ t.pred = rdfsLabel ∨
    t.pred = rimoDefault ++ "name" ∨ t.pred = rimoDefault ++ "description" ∨
    t.pred = rimoDefault ++ "example" ∨ t.pred = rimoDefault ++ "isQualitativeIndicator" ∨
    t.pred = rimoDefault ++ "measuredBy" ∨ t.pred = rimoDefault ++ "canBeAutomatedBy" ∨
    t.pred = rimoDefault ++ "requestedBy" ∨
    t ∈ categoryTriples rimoDefault (kpiUriBase rimoDefault row) g row ∨
    t ∈ linkTriplesBase (kpiUriBase rimoDefault row) row := by
  by_cases hname : nameOfRow row = ""
  · have h0 := processRowBase_blank rimoDefault g row hname
    rw [h0] at h
    simp only [Except.ok.injEq] at h
    rw [← h] at ht
    cases ht
  · obtain ⟨d0, _, hts⟩ := processRowBase_ok_decomp _ _ _ _ h hname
    subst hts
    simp only [List.mem_append] at ht
    rcases ht with ((((((((ht | ht) | ht) | ht) | ht) | ht) | ht) | ht) | ht)
    · simp only [List.mem_cons, List.not_mem_nil, or_false] at ht
      rcases ht with rfl | rfl
      · exact Or.inl rfl
      · exact Or.inr (Or.inr (Or.inl rfl))
    · exact Or.inr (Or.inr (Or.inr (Or.inl (descTriples_pred _ _ _ _ ht))))
    · exact Or.inr (Or.inr (Or.inr (Or.inr (Or.inl (exampleTriples_pred _ _ _ _ ht)))))
    · exact Or.inr (Or.inr (Or.inr (Or.inr (Or.inr (Or.inl (qualTriples_pred _ _ _ _ ht))))))
    · exact Or.inr (Or.inr (Or.inr (Or.inr (Or.inr (Or.inr (Or.inr (Or.inr (Or.inr (Or.inl ht)))))))))
    · rcases meansTriples_pred _ _ _ _ ht with hp | hp | hp
      · exact Or.inl hp
      · exact Or.inr (Or.inl hp)
      · exact Or.inr (Or.inr (Or.inr (Or.inr (Or.inr (Or.inr (Or.inl hp))))))
    · rcases autoTriples_pred _ _ _ _ ht with hp | hp | hp
      · exact Or.inl hp
      · exact Or.inr (Or.inl hp)
      · exact Or.inr (Or.inr (Or.inr (Or.inr (Or.inr (Or.inr (Or.inr (Or.inl hp)))))))
    · rcases agentTriples_pred _ _ _ _ ht with hp | hp | hp
      · exact Or.inl hp
      · exact Or.inr (Or.inl hp)
      · exact Or.inr (Or.inr (Or.inr (Or.inr (Or.inr (Or.inr (Or.inr (Or.inr (Or.inl hp))))))))
    · exact Or.inr (Or.inr (Or.inr (Or.inr (Or.inr (Or.inr (Or.inr (Or.inr (Or.inr (Or.inr ht)))))))))

theorem append_ne_of_not_suffix (ns s t : String) (h : ¬ s.data <:+ t.data) :
    ns ++ s ≠ t := by
  intro he
  apply h
  rw [← he, String.data_append]
  exact List.suffix_append _ _

theorem pyStrip_ne_of_http (s : String) (h : pyStartsWith s "http" = true) :
    pyStrip s ≠ "" := by
  have hpre : "http".data <+: s.data := List.isPrefixOf_iff_prefix.mp h
  obtain ⟨rest, hrest⟩ := hpre
  intro hc
  have hdata : trimL s.data = [] := congrArg String.data hc
  rw [← hrest] at hdata
  unfold trimL at hdata
  have hdrop : List.dropWhile isPyWs ("http".data ++ rest) =
      'h' :: ("ttp".data ++ rest) := by
    rfl
  rw [hdrop] at hdata
  have : ('h' :: ("ttp".data ++ rest)).reverse =
      ("ttp".data ++ rest).reverse ++ ['h'] := by
    simp
  rw [this] at hdata
  have hne : List.dropWhile isPyWs (("ttp".data ++ rest).reverse ++ ['h']) ≠ [] := by
    generalize ("ttp".data ++ rest).reverse = l
    induction l with
    | nil => decide
    | cons x xs ih =>
      simp only [List.cons_append, List.dropWhile_cons]
      split
      · exact ih
      · simp
  exact hne (List.reverse_eq_nil_iff.mp hdata)

theorem add_literal_mem (kpi prop : String) (v : CellValue) (dt : Option String)
    (t : Triple) (ht : t ∈ add_literal kpi prop v dt) :
    t.subj = kpi ∧ t.pred = prop := by
  unfold add_literal at ht
  split at ht
  · split at ht <;> (simp only [List.mem_singleton] at ht; subst ht; exact ⟨rfl, rfl⟩)
  · cases ht

theorem svcCatTriples_pred (g : List Triple) (kpi : String) (row : Row) (t : Triple)
    (ht : t ∈ svcCatTriples g kpi row) : t.pred = propU "serviceCategory" := by
  unfold svcCatTriples at ht
  split at ht
  · simp only [List.mem_flatMap] at ht
    obtain ⟨svc, _, ht⟩ := ht
    exact (add_literal_mem _ _ _ _ _ ht).2
  · cases ht

theorem svcCatTriples_none (g : List Triple) (kpi : String) (row : Row)
    (h : mapToolType g row.serviceCategory = none) : svcCatTriples g kpi row = [] := by
  unfold svcCatTriples
  rw [h]

theorem tgTriplesOnto_pred (g : List Triple) (kpi : String) (row : Row) (t : Triple)
    (ht : t ∈ tgTriplesOnto g kpi row) : t.pred = propU "targetGroup" := by
  unfold tgTriplesOnto at ht
  split at ht
  · simp only [List.mem_flatMap] at ht
    obtain ⟨grp, _, ht⟩ := ht
    exact (add_literal_mem _ _ _ _ _ ht).2
  · cases ht

theorem autoTriplesOnto_pred (g : List Triple) (kpi : String) (row : Row) (t : Triple)
    (ht : t ∈ autoTriplesOnto g kpi row) : t.pred = propU "automationTool" := by
  unfold autoTriplesOnto at ht
  split at ht
  · simp only [List.mem_flatMap] at ht
    obtain ⟨tool, _, ht⟩ := ht
    split at ht
    · simp only [List.mem_singleton] at ht; rw [ht]
    · cases ht
  · cases ht

theorem mandTriplesOnto_pred (kpi : String) (row : Row) (t : Triple)
    (ht : t ∈ mandTriplesOnto kpi row) : t.pred = propU "mandatory" := by
  unfold mandTriplesOnto at ht
  exact (add_literal_mem _ _ _ _ _ ht).2

/-- Localisation of a triple of a successful ontology-builder row. -/
theorem onto_pred_localize (g : List Triple) (row : Row) (ts : List Triple)
    (h : processRowOnto g row = .ok ts) (t : Triple) (ht : t ∈ ts) :
    ∃ ind, row.indicator = .vStr ind ∧
      (t.pred = rdfType ∨ t.pred = rdfsLabel ∨ t.pred = propU "indicatorSet" ∨
       t.pred = propU "description" ∨ t ∈ svcCatTriples g (kpiUriOnto ind) row ∨
       t.pred = propU "valueType" ∨ t.pred = propU "example" ∨
       t.pred = propU "targetGroup" ∨ t.pred = propU "mandatory" ∨
       t.pred = propU "measurement" ∨ t.pred = propU "source" ∨
       t.pred = propU "automationTool" ∨
       t ∈ linkTriplesOnto (kpiUriOnto ind) row) := by
  obtain ⟨ind, d0, hind, _, hts⟩ := processRowOnto_ok_decomp _ _ _ h
  subst hts
  refine ⟨ind, hind, ?_⟩
  unfold ontoRowTriples at ht
  dsimp only at ht
  simp only [List.mem_append] at ht
  rcases ht with (((((((((((ht | ht) | ht) | ht) | ht) | ht) | ht) | ht) | ht) | ht) | ht) | ht)
  · simp only [List.mem_cons, List.not_mem_nil, or_false] at ht
    rcases ht with rfl | rfl
    · exact Or.inl rfl
    · exact Or.inr (Or.inl rfl)
  · have hp := (add_literal_mem _ _ _ _ _ ht).2
    tauto
  · have hp := (add_literal_mem _ _ _ _ _ ht).2
    tauto
  · tauto
  · have hp := (add_literal_mem _ _ _ _ _ ht).2
    tauto
  · have hp := (add_literal_mem _ _ _ _ _ ht).2
    tauto
  · have hp := tgTriplesOnto_pred _ _ _ _ ht
    tauto
  · have hp := mandTriplesOnto_pred _ _ _ ht
    tauto
  · have hp := (add_literal_mem _ _ _ _ _ ht).2
    tauto
  · have hp := (add_literal_mem _ _ _ _ _ ht).2
    tauto
  · have hp := autoTriplesOnto_pred _ _ _ _ ht
    tauto
  · tauto

/-- C2 counterexample: for measurement text "Google Analytics" the
instance builder emits the means sub-resource under the
upper-camel-case transform ("means/GoogleAnalytics"), not under the
lowercase-underscore `slug` ("means/google_analytics") the claim
describes. -/
theorem subresource_slug_counterexample :
    processRowBase rimoDefault [] rowMeans = .ok c2ts ∧
    (⟨rimoDefault ++ "means/" ++ slugcamel "Google Analytics", rdfType,
       .uri (rimoDefault ++ "MeasurementMeans")⟩ : Triple) ∈ c2ts ∧
    (⟨rimoDefault ++ "means/" ++ slug "Google Analytics", rdfType,
       .uri (rimoDefault ++ "MeasurementMeans")⟩ : Triple) ∉ c2ts ∧
    slug "Google Analytics" ≠ slugcamel "Google Analytics" := by
  exact ⟨by decide, by decide, by decide, by decide⟩

/-- C2 (amended): every dynamically derived sub-resource URI of the
instance builder (measurement means, automation tools, agents) is
formed from the upper-camel-case transform `slugcamel` of the trimmed
source text, under the respective prefix. -/
theorem subresource_slugcamel :
    ∀ ns g row ts, processRowBase ns g row = .ok ts → nameOfRow row ≠ "" →
      ((∀ s, row.measurement = .vStr s → pyStrip s ≠ "" →
        (⟨ns ++ "means/" ++ slugcamel (pyStrip s), rdfType,
          .uri (ns ++ "MeasurementMeans")⟩ : Triple) ∈ ts) ∧
       (∀ s tok, row.automation = .vStr s → tok ∈ pySplit s ',' → pyStrip tok ≠ "" →
        (⟨ns ++ "tool/" ++ slugcamel (pyStrip tok), rdfType,
          .uri (ns ++ "AutomationTool")⟩ : Triple) ∈ ts) ∧
       (∀ s tok, row.targetGroup = .vStr s → s ≠ "" → tok ∈ pySplit s ',' →
          pyStrip tok ≠ "" →
        (⟨ns ++ "agent/" ++ slugcamel (pyStrip tok), rdfType, .uri foafAgent⟩ : Triple)
          ∈ ts)) := by
  intro ns g row ts h hname
  obtain ⟨d0, _, hts⟩ := processRowBase_ok_decomp _ _ _ _ h hname
  subst hts
  refine ⟨?_, ?_, ?_⟩
  · intro s hs hne
    have hm : (⟨ns ++ "means/" ++ slugcamel (pyStrip s), rdfType,
        .uri (ns ++ "MeasurementMeans")⟩ : Triple)
        ∈ meansTriples ns (kpiUriBase ns row) row := by
      unfold meansTriples
      rw [hs]
      simp [rowGetD, pyStr, hne]
    exact List.mem_append_left _ (List.mem_append_left _
      (List.mem_append_left _ (List.mem_append_right _ hm)))
  · intro s tok hs htok hne
    have hm : (⟨ns ++ "tool/" ++ slugcamel (pyStrip tok), rdfType,
        .uri (ns ++ "AutomationTool")⟩ : Triple)
        ∈ autoTriples ns (kpiUriBase ns row) row := by
      unfold autoTriples
      rw [hs]
      simp only [isna, Bool.false_eq_true, if_false, List.mem_flatMap]
      exact ⟨tok, htok, by simp [hne]⟩
    exact List.mem_append_left _ (List.mem_append_left _ (List.mem_append_right _ hm))
  · intro s tok hs hsne htok hne
    have hm : (⟨ns ++ "agent/" ++ slugcamel (pyStrip tok), rdfType,
        .uri foafAgent⟩ : Triple)
        ∈ agentTriples ns (kpiUriBase ns row) row := by
      unfold agentTriples
      rw [hs]
      simp only [truthy, pyStr]
      rw [if_pos (by simpa using hsne)]
      simp only [List.mem_flatMap]
      exact ⟨tok, htok, by simp [hne]⟩
    exact List.mem_append_left _ (List.mem_append_right _ hm)

/-- C2 witness: the amended statement applied to `rowMeans`. -/
theorem subresource_slugcamel_witness :
    (⟨rimoDefault ++ "means/" ++ slugcamel (pyStrip "Google Analytics"), rdfType,
      .uri (rimoDefault ++ "MeasurementMeans")⟩ : Triple) ∈ c2ts := by
  exact (subresource_slugcamel rimoDefault [] rowMeans c2ts (by decide) (by decide)).1
    "Google Analytics" rfl (by decide)

/-- C3 counterexample: the ontology builder does not skip a row whose
Indicator is whitespace-only; it emits four triples on the bare
namespace URI (empty local name). -/
theorem blank_indicator_counterexample :
    processRowOnto ontoStatic rowBlankInd = .ok c3out ∧ c3out ≠ [] := by
  exact ⟨by decide, by decide⟩

/-- C3 (amended): a row (at index 2 or later) whose Indicator string is
empty after trimming yields zero triples and no error in the instance
builder (the iteration is a no-op); the ontology builder does not skip
such a row: when it succeeds its output contains the Indicator-typing
triple on the empty-slug subject and is non-empty. -/
theorem blank_indicator_row_behavior :
    (∀ ns g row s, row.indicator = .vStr s → pyStrip s = "" →
      processRowBase ns g row = .ok []) ∧
    (∀ ns g n row rs s, 2 ≤ n → row.indicator = .vStr s → pyStrip s = "" →
      iterrowsBase ns g n (row :: rs) = iterrowsBase ns g (n + 1) rs) ∧
    (∀ g row s ts, row.indicator = .vStr s → pyStrip s = "" →
      processRowOnto g row = .ok ts →
      (⟨kpiUriOnto s, rdfType, .uri (BASEo ++ "Indicator")⟩ : Triple) ∈ ts ∧ ts ≠ []) := by
  have blank1 : ∀ ns g row s, row.indicator = .vStr s → pyStrip s = "" →
      processRowBase ns g row = .ok [] := by
    intro ns g row s hind hs
    apply processRowBase_blank
    unfold nameOfRow
    rw [hind]
    simp [rowGetD, pyStr, hs]
  refine ⟨blank1, ?_, ?_⟩
  · intro ns g n row rs s hn hind hs
    have h0 := blank1 ns g row s hind hs
    simp only [iterrowsBase]
    rw [if_neg (by omega)]
    rw [h0]
    simp only [List.append_nil]
    cases hres : iterrowsBase ns g (n + 1) rs <;> simp [hres]
  · intro g row s ts hind hs h
    obtain ⟨ind, d0, hind2, _, hts⟩ := processRowOnto_ok_decomp _ _ _ h
    rw [hind] at hind2
    have hsind : s = ind := by cases hind2; rfl
    subst hsind
    constructor
    · rw [hts]
      simp [ontoRowTriples, List.mem_append]
    · rw [hts]
      intro hc
      have hlen := congrArg List.length hc
      simp [ontoRowTriples] at hlen

/-- C3 witness: the amended statement applied at concrete inputs. -/
theorem blank_indicator_row_behavior_witness :
    processRowBase rimoDefault [] rowBlankInd = .ok [] ∧
    iterrowsBase rimoDefault [] 2 [rowBlankInd] = iterrowsBase rimoDefault [] 3 [] ∧
    ((⟨kpiUriOnto "  ", rdfType, .uri (BASEo ++ "Indicator")⟩ : Triple) ∈ c3out ∧
      c3out ≠ []) := by
  refine ⟨?_, ?_, ?_⟩
  · exact blank_indicator_row_behavior.1 rimoDefault [] rowBlankInd "  " rfl (by decide)
  · exact blank_indicator_row_behavior.2.1 rimoDefault [] 2 rowBlankInd [] "  "
      (by omega) rfl (by decide)
  · exact blank_indicator_row_behavior.2.2 ontoStatic rowBlankInd "  " c3out rfl
      (by decide) (by decide)

/-- C1 counterexample: the instance-builder helper `lit`, given the
sentinel string "nan" together with a (truthy) datatype argument,
produces a literal with lexical form "nan"; and the ontology-builder
helper `add_literal` given the string "nan" produces a literal as well.
So the claim fails for some datatype arguments and in the second
pipeline. -/
theorem lit_sentinel_counterexample :
    lit (.vStr "nan") none (some xsdBoolean) = some (.lit "nan" none (some xsdBoolean)) ∧
    add_literal (BASEo ++ "X") (propU "description") (.vStr "nan") none =
      [⟨BASEo ++ "X", propU "description", .lit "nan" none none⟩] := by
  decide

/-- C1 (amended): `lit` suppresses missing (None/NaN) and
blank-after-trim values for every language and datatype argument, and
suppresses the sentinel strings "nan"/"na"/"<na>"/"none" (any case)
whenever the datatype argument is falsy; `add_literal` suppresses only
missing and blank values (for every datatype argument). -/
theorem lit_missing_empty_sentinel :
    (∀ v lang dt, optTruthy dt = false →
      (isna v = true ∨ pyStrip (pyStr v) = "" ∨
        pyLower (pyStrip (pyStr v)) ∈ sentinels) →
      lit v lang dt = none) ∧
    (∀ v lang dt, isna v = true ∨ pyStrip (pyStr v) = "" → lit v lang dt = none) ∧
    (∀ kpi prop v dt, isna v = true ∨ pyStrip (pyStr v) = "" →
      add_literal kpi prop v dt = []) := by
  refine ⟨?_, ?_, ?_⟩
  · intro v lang dt hdt h
    cases v with
    | vNone => simp [lit]
    | vNaN => simp [lit, isna]
    | vStr s =>
      simp only [pyStr] at h
      rcases h with h | h | h
      · simp [isna] at h
      · simp [lit, pyStr, h]
      · by_cases h0 : pyStrip s = ""
        · simp [lit, pyStr, h0]
        · simp [lit, pyStr, h0, isna, hdt, h]
  · intro v lang dt h
    cases v with
    | vNone => simp [lit]
    | vNaN => simp [lit, isna]
    | vStr s =>
      simp only [pyStr] at h
      rcases h with h | h
      · simp [isna] at h
      · simp [lit, pyStr, h]
  · intro kpi prop v dt h
    rcases h with h | h
    · simp [add_literal, h]
    · simp [add_literal, h]

/-- C1 witness: the amended statement applied at concrete inputs. -/
theorem lit_missing_empty_sentinel_witness :
    lit (.vStr " <NA> ") (some "en") none = none ∧
    lit .vNaN (some "en") (some xsdBoolean) = none ∧
    add_literal (BASEo ++ "X") (propU "example") .vNaN (some xsdBoolean) = [] := by
  refine ⟨?_, ?_, ?_⟩
  · exact lit_missing_empty_sentinel.1 _ _ _ (by decide) (Or.inr (Or.inr (by decide)))
  · exact lit_missing_empty_sentinel.2.1 _ _ _ (Or.inl (by decide))
  · exact lit_missing_empty_sentinel.2.2 _ _ _ _ (Or.inl (by decide))

/-- C4 counterexample: the KPI subject URI is not injective in the
indicator name — "Test KPI" and "test kpi" collide in the instance
builder, and "A B" and "A/B" collide in the ontology builder. -/
theorem kpi_uri_injectivity_counterexample :
    kpiUriBase rimoDefault rowTestKpi = kpiUriBase rimoDefault rowTestKpiLower ∧
    rowTestKpi.indicator ≠ rowTestKpiLower.indicator ∧
    kpiUriOnto "A B" = kpiUriOnto "A/B" ∧ "A B" ≠ "A/B" := by
  decide

/-- C4 (amended): the KPI subject URI of each pipeline is a
deterministic function of the indicator name (equal names give equal
URIs), and it is the subject actually used for the emitted typing
triple; injectivity does not hold. -/
theorem kpi_uri_deterministic :
    (∀ ns r1 r2, r1.indicator = r2.indicator →
      kpiUriBase ns r1 = kpiUriBase ns r2) ∧
    (∀ s1 s2 : String, s1 = s2 → kpiUriOnto s1 = kpiUriOnto s2) ∧
    (∀ ns g row ts, processRowBase ns g row = .ok ts → nameOfRow row ≠ "" →
      (⟨kpiUriBase ns row, rdfType, .uri (ns ++ "KPI")⟩ : Triple) ∈ ts) ∧
    (∀ g row ts ind, processRowOnto g row = .ok ts → row.indicator = .vStr ind →
      (⟨kpiUriOnto ind, rdfType, .uri (BASEo ++ "Indicator")⟩ : Triple) ∈ ts) := by
  refine ⟨?_, ?_, ?_, ?_⟩
  · intro ns r1 r2 h
    simp [kpiUriBase, nameOfRow, h]
  · intro s1 s2 h
    rw [h]
  · intro ns g row ts h hname
    unfold processRowBase at h
    rw [if_neg hname] at h
    cases hd : strReplaceCell row.description "\n" " " with
    | error e => rw [hd] at h; cases h
    | ok d0 =>
      rw [hd] at h
      simp only [Except.ok.injEq] at h
      rw [← h]
      simp [List.mem_append]
  · intro g row ts ind h hind
    unfold processRowOnto at h
    rw [hind] at h
    cases hd : strReplaceCell row.description "\n" " " with
    | error e => rw [hd] at h; cases h
    | ok d0 =>
      rw [hd] at h
      simp only [Except.ok.injEq] at h
      rw [← h]
      simp [ontoRowTriples, List.mem_append]

/-- C4 witness: determinism and subject use at concrete inputs. -/
theorem kpi_uri_deterministic_witness :
    kpiUriBase rimoDefault rowTestKpi = kpiUriBase rimoDefault rowTestKpi ∧
    (⟨kpiUriOnto "A", rdfType, .uri (BASEo ++ "Indicator")⟩ : Triple) ∈
      [(⟨kpiUriOnto "A", rdfType, .uri (BASEo ++ "Indicator")⟩ : Triple),
       ⟨kpiUriOnto "A", rdfsLabel, .lit "A" (some "en") none⟩,
       ⟨kpiUriOnto "A", propU "description", .lit "d" none none⟩,
       ⟨kpiUriOnto "A", propU "valueType", .lit (patoNs ++ "0000068") none none⟩] := by
  constructor
  · exact kpi_uri_deterministic.1 rimoDefault rowTestKpi rowTestKpi rfl
  · exact kpi_uri_deterministic.2.2.2 [] rowA _ "A" (by rfl) (by decide)

/-- C9: a processed row (instance builder: non-blank indicator;
ontology builder: string indicator) whose Description cell is missing
(None or NaN) makes each pipeline fail with an AttributeError from the
unchecked `.replace` attribute access. -/
theorem missing_description_fatal :
    (∀ ns g row, nameOfRow row ≠ "" → isna row.description = true →
      processRowBase ns g row = .error .attributeError) ∧
    (∀ g row ind, row.indicator = .vStr ind → isna row.description = true →
      processRowOnto g row = .error .attributeError) := by
  constructor
  · intro ns g row hname hdesc
    unfold processRowBase
    rw [if_neg hname]
    cases hv : row.description with
    | vNone => simp [strReplaceCell]
    | vNaN => simp [strReplaceCell]
    | vStr s => rw [hv] at hdesc; simp [isna] at hdesc
  · intro g row ind hind hdesc
    unfold processRowOnto
    rw [hind]
    cases hv : row.description with
    | vNone => simp [strReplaceCell]
    | vNaN => simp [strReplaceCell]
    | vStr s => rw [hv] at hdesc; simp [isna] at hdesc

/-- C9 witness: both pipelines fail on a concrete row with indicator
"X" and a NaN Description. -/
theorem missing_description_fatal_witness :
    processRowBase rimoDefault [] rowNoDesc = .error .attributeError ∧
    processRowOnto ontoStatic rowNoDesc = .error .attributeError := by
  constructor
  · exact missing_description_fatal.1 rimoDefault [] rowNoDesc (by decide) (by decide)
  · exact missing_description_fatal.2 ontoStatic rowNoDesc "X" (by decide) (by decide)

/-- C5 counterexample: a ServiceCategory declared only in the loaded
base ontology is not found by the instance builder: the data graph is
initialised without any base triple (only prefixes are copied), so
`toolcat` returns no category for the text naming it instead of the
singleton the claim requires. -/
theorem base_category_counterexample :
    (⟨rimoDefault ++ "Foo", rdfType, .uri (rimoDefault ++ "ServiceCategory")⟩ : Triple)
      ∈ demoBase ∧
    toolcat rimoDefault (initialData demoBase) (.vStr "Foo") = none := by
  exact ⟨by decide, by decide⟩

/-- C5 (amended): when the mangled form of the trimmed text is declared
as a ServiceCategory in the graph the mapping consults, both mappings
return exactly that one resource as a singleton; but the graph the
instance builder consults starts without any ServiceCategory
declaration whatever the loaded base ontology contains. -/
theorem category_declared_singleton :
    (∀ ns g s, (⟨ns ++ pyReplace (pyStrip s) " " "_", rdfType,
        .uri (ns ++ "ServiceCategory")⟩ : Triple) ∈ g →
      toolcat ns g (.vStr s) = some [ns ++ pyReplace (pyStrip s) " " "_"]) ∧
    (∀ g s, (⟨BASEo ++ pyReplace (pyStrip s) " " "_", rdfType,
        .uri (BASEo ++ "ServiceCategory")⟩ : Triple) ∈ g →
      mapToolType g (.vStr s) = some [BASEo ++ pyReplace (pyStrip s) " " "_"]) ∧
    (∀ (ns : String) (base : List Triple) (s : String),
      (⟨ns ++ pyReplace (pyStrip s) " " "_", rdfType,
        .uri (ns ++ "ServiceCategory")⟩ : Triple) ∉ initialData base) := by
  refine ⟨?_, ?_, ?_⟩
  · intro ns g s hmem
    unfold toolcat
    dsimp only
    rw [if_pos hmem]
  · intro g s hmem
    unfold mapToolType
    dsimp only
    rw [if_pos hmem]
  · intro ns base s hmem
    simp only [initialData, List.mem_cons, List.not_mem_nil, or_false] at hmem
    rcases hmem with h | h | h
    · have hobj : Node.uri (ns ++ "ServiceCategory") = Node.uri owlOntology :=
        congrArg Triple.obj h
      have h2 : ns ++ "ServiceCategory" = owlOntology := by injection hobj
      exact append_ne_of_not_suffix ns "ServiceCategory" owlOntology (by decide) h2
    · have h2 : rdfType = owlImports := congrArg Triple.pred h
      exact absurd h2 (by decide)
    · have h2 : rdfType = dct ++ "title" := congrArg Triple.pred h
      exact absurd h2 (by decide)

/-- C5 witness: the amended statement applied at concrete inputs. -/
theorem category_declared_singleton_witness :
    toolcat rimoDefault demoBase (.vStr "Foo") =
      some [rimoDefault ++ pyReplace (pyStrip "Foo") " " "_"] ∧
    mapToolType ontoStatic (.vStr "Web application") =
      some [BASEo ++ pyReplace (pyStrip "Web application") " " "_"] ∧
    (⟨rimoDefault ++ pyReplace (pyStrip "Foo") " " "_", rdfType,
      .uri (rimoDefault ++ "ServiceCategory")⟩ : Triple) ∉ initialData demoBase := by
  refine ⟨?_, ?_, ?_⟩
  · exact category_declared_singleton.1 rimoDefault demoBase "Foo" (by decide)
  · exact category_declared_singleton.2.1 ontoStatic "Web application" (by decide)
  · exact category_declared_singleton.2.2 rimoDefault demoBase "Foo"

/-- C6: given text whose mangled form is not declared, both category
mappings follow the fixed legacy table (the six legacy labels map to
their documented substitutes, with "Libraries / APIs" giving both
Library and Web_API; any other text, NaN or a missing cell yields no
category), and a row whose mapping yields no category gets no
category-dependent triples and no error. -/
theorem category_legacy_fallback :
    (∀ ns g s, (⟨ns ++ pyReplace (pyStrip s) " " "_", rdfType,
        .uri (ns ++ "ServiceCategory")⟩ : Triple) ∉ g →
      toolcat ns g (.vStr s) = (legacyTable ns).lookup (pyStrip s)) ∧
    (∀ g s, (⟨BASEo ++ pyReplace (pyStrip s) " " "_", rdfType,
        .uri (BASEo ++ "ServiceCategory")⟩ : Triple) ∉ g →
      mapToolType g (.vStr s) = (legacyTable BASEo).lookup (pyStrip s)) ∧
    (∀ ns g, toolcat ns g .vNaN = none ∧ toolcat ns g .vNone = none) ∧
    (∀ g, mapToolType g .vNaN = none ∧ mapToolType g .vNone = none) ∧
    (∀ ns kpi g row, toolcat ns g row.serviceCategory = none →
      categoryTriples ns kpi g row = []) ∧
    (∀ g kpi row, mapToolType g row.serviceCategory = none →
      svcCatTriples g kpi row = []) := by
  refine ⟨?_, ?_, ?_, ?_, ?_, ?_⟩
  · intro ns g s hmem
    unfold toolcat
    dsimp only
    rw [if_neg hmem]
    by_cases h1 : pyStrip s = "Web applications"
    · simp [legacyTable, List.lookup, h1]
    by_cases h2 : pyStrip s = "Database"
    · simp [legacyTable, List.lookup, h1, h2]
    by_cases h3 : pyStrip s = "Libraries / APIs"
    · simp [legacyTable, List.lookup, h1, h2, h3]
    by_cases h4 : pyStrip s = "Support / Consulting"
    · simp [legacyTable, List.lookup, h1, h2, h3, h4]
    by_cases h5 : pyStrip s = "Tools/ Applications"
    · simp [legacyTable, List.lookup, h1, h2, h3, h4, h5]
    by_cases h6 : pyStrip s = "Workflows / pipelines"
    · simp [legacyTable, List.lookup, h1, h2, h3, h4, h5, h6]
    · have e1 : (pyStrip s == "Web applications") = false := beq_eq_false_iff_ne.mpr h1
      have e2 : (pyStrip s == "Database") = false := beq_eq_false_iff_ne.mpr h2
      have e3 : (pyStrip s == "Libraries / APIs") = false := beq_eq_false_iff_ne.mpr h3
      have e4 : (pyStrip s == "Support / Consulting") = false := beq_eq_false_iff_ne.mpr h4
      have e5 : (pyStrip s == "Tools/ Applications") = false := beq_eq_false_iff_ne.mpr h5
      have e6 : (pyStrip s == "Workflows / pipelines") = false := beq_eq_false_iff_ne.mpr h6
      simp [legacyTable, List.lookup, h1, h2, h3, h4, h5, h6, e1, e2, e3, e4, e5, e6]
  · intro g s hmem
    unfold mapToolType
    dsimp only
    rw [if_neg hmem]
    by_cases h1 : pyStrip s = "Web applications"
    · simp [legacyTable, List.lookup, h1]
    by_cases h2 : pyStrip s = "Database"
    · simp [legacyTable, List.lookup, h1, h2]
    by_cases h3 : pyStrip s = "Libraries / APIs"
    · simp [legacyTable, List.lookup, h1, h2, h3]
    by_cases h4 : pyStrip s = "Support / Consulting"
    · simp [legacyTable, List.lookup, h1, h2, h3, h4]
    by_cases h5 : pyStrip s = "Tools/ Applications"
    · simp [legacyTable, List.lookup, h1, h2, h3, h4, h5]
    by_cases h6 : pyStrip s = "Workflows / pipelines"
    · simp [legacyTable, List.lookup, h1, h2, h3, h4, h5, h6]
    · have e1 : (pyStrip s == "Web applications") = false := beq_eq_false_iff_ne.mpr h1
      have e2 : (pyStrip s == "Database") = false := beq_eq_false_iff_ne.mpr h2
      have e3 : (pyStrip s == "Libraries / APIs") = false := beq_eq_false_iff_ne.mpr h3
      have e4 : (pyStrip s == "Support / Consulting") = false := beq_eq_false_iff_ne.mpr h4
      have e5 : (pyStrip s == "Tools/ Applications") = false := beq_eq_false_iff_ne.mpr h5
      have e6 : (pyStrip s == "Workflows / pipelines") = false := beq_eq_false_iff_ne.mpr h6
      simp [legacyTable, List.lookup, h1, h2, h3, h4, h5, h6, e1, e2, e3, e4, e5, e6]
  · intro ns g
    exact ⟨rfl, rfl⟩
  · intro g
    exact ⟨rfl, rfl⟩
  · intro ns kpi g row h
    exact categoryTriples_none ns kpi g row h
  · intro g kpi row h
    exact svcCatTriples_none g kpi row h

/-- C6 witness: the statement applied at concrete inputs (a legacy
label, an unrecognized label, and a missing cell). -/
theorem category_legacy_fallback_witness :
    toolcat rimoDefault [] (.vStr "Database") =
      (legacyTable rimoDefault).lookup (pyStrip "Database") ∧
    mapToolType ontoStatic (.vStr "Libraries / APIs") =
      (legacyTable BASEo).lookup (pyStrip "Libraries / APIs") ∧
    toolcat rimoDefault [] .vNaN = none ∧
    categoryTriples rimoDefault (rimoDefault ++ "X") [] rowC10 = [] := by
  refine ⟨?_, ?_, ?_, ?_⟩
  · exact category_legacy_fallback.1 rimoDefault [] "Database" (by decide)
  · exact category_legacy_fallback.2.1 ontoStatic "Libraries / APIs" (by decide)
  · exact (category_legacy_fallback.2.2.1 rimoDefault []).1
  · exact category_legacy_fallback.2.2.2.2.1 rimoDefault (rimoDefault ++ "X") [] rowC10
      (by decide)

/-- C7: in the instance builder the trimmed lower-cased Mandatory cell
is classified tri-state: for every mapped category, "yes"/"true"/"1"
puts a mandatoryFor triple in the row output and "no"/"false"/"0" a
recommendedFor triple; any other value produces neither triple anywhere
in the row output. -/
theorem mandatory_tristate :
    ∀ g row ts, processRowBase rimoDefault g row = .ok ts →
      (((mandOfRow row = "yes" ∨ mandOfRow row = "true" ∨ mandOfRow row = "1") →
        nameOfRow row ≠ "" →
        ∀ cats cat, toolcat rimoDefault g row.serviceCategory = some cats →
          cat ∈ cats →
          (⟨kpiUriBase rimoDefault row, rimoDefault ++ "mandatoryFor",
            .uri cat⟩ : Triple) ∈ ts) ∧
       ((mandOfRow row = "no" ∨ mandOfRow row = "false" ∨ mandOfRow row = "0") →
        nameOfRow row ≠ "" →
        ∀ cats cat, toolcat rimoDefault g row.serviceCategory = some cats →
          cat ∈ cats →
          (⟨kpiUriBase rimoDefault row, rimoDefault ++ "recommendedFor",
            .uri cat⟩ : Triple) ∈ ts) ∧
       (¬(mandOfRow row = "yes" ∨ mandOfRow row = "true" ∨ mandOfRow row = "1") →
        ∀ t ∈ ts, t.pred ≠ rimoDefault ++ "mandatoryFor") ∧
       (¬(mandOfRow row = "no" ∨ mandOfRow row = "false" ∨ mandOfRow row = "0") →
        ∀ t ∈ ts, t.pred ≠ rimoDefault ++ "recommendedFor")) := by
  intro g row ts h
  refine ⟨?_, ?_, ?_, ?_⟩
  · intro hm hname cats cat hc hcat
    obtain ⟨d0, _, hts⟩ := processRowBase_ok_decomp _ _ _ _ h hname
    subst hts
    have hmem := categoryTriples_mand_mem rimoDefault (kpiUriBase rimoDefault row)
      g row cats cat hc hcat hm
    exact List.mem_append_left _ (List.mem_append_left _ (List.mem_append_left _
      (List.mem_append_left _ (List.mem_append_right _ hmem))))
  · intro hm hname cats cat hc hcat
    obtain ⟨d0, _, hts⟩ := processRowBase_ok_decomp _ _ _ _ h hname
    subst hts
    have hmem := categoryTriples_rec_mem rimoDefault (kpiUriBase rimoDefault row)
      g row cats cat hc hcat hm
    exact List.mem_append_left _ (List.mem_append_left _ (List.mem_append_left _
      (List.mem_append_left _ (List.mem_append_right _ hmem))))
  · intro hm t ht hpred
    rcases base_pred_localize _ _ _ h t ht with
      hp | hp | hp | hp | hp | hp | hp | hp | hp | hp | hp
    · exact absurd (hp.symm.trans hpred) (by decide)
    · exact absurd (hp.symm.trans hpred) (by decide)
    · exact absurd (hp.symm.trans hpred) (by decide)
    · exact absurd (hp.symm.trans hpred) (by decide)
    · exact absurd (hp.symm.trans hpred) (by decide)
    · exact absurd (hp.symm.trans hpred) (by decide)
    · exact absurd (hp.symm.trans hpred) (by decide)
    · exact absurd (hp.symm.trans hpred) (by decide)
    · exact absurd (hp.symm.trans hpred) (by decide)
    · obtain ⟨-, hp2⟩ := categoryTriples_pred _ _ _ _ _ hp
      rcases hp2 with hp2 | ⟨hp2, hy⟩ | ⟨hp2, hn⟩
      · exact absurd (hp2.symm.trans hpred) (by decide)
      · exact hm hy
      · exact absurd (hp2.symm.trans hpred) (by decide)
    · have hp2 := linkTriplesBase_pred _ _ _ hp
      exact absurd (hp2.symm.trans hpred) (by decide)
  · intro hm t ht hpred
    rcases base_pred_localize _ _ _ h t ht with
      hp | hp | hp | hp | hp | hp | hp | hp | hp | hp | hp
    · exact absurd (hp.symm.trans hpred) (by decide)
    · exact absurd (hp.symm.trans hpred) (by decide)
    · exact absurd (hp.symm.trans hpred) (by decide)
    · exact absurd (hp.symm.trans hpred) (by decide)
    · exact absurd (hp.symm.trans hpred) (by decide)
    · exact absurd (hp.symm.trans hpred) (by decide)
    · exact absurd (hp.symm.trans hpred) (by decide)
    · exact absurd (hp.symm.trans hpred) (by decide)
    · exact absurd (hp.symm.trans hpred) (by decide)
    · obtain ⟨-, hp2⟩ := categoryTriples_pred _ _ _ _ _ hp
      rcases hp2 with hp2 | ⟨hp2, hy⟩ | ⟨hp2, hn⟩
      · exact absurd (hp2.symm.trans hpred) (by decide)
      · exact absurd (hp2.symm.trans hpred) (by decide)
      · exact hm hn
    · have hp2 := linkTriplesBase_pred _ _ _ hp
      exact absurd (hp2.symm.trans hpred) (by decide)

/-- C7 witness: a row with Mandatory "Yes" and category "Database"
receives the mandatoryFor triple. -/
theorem mandatory_tristate_witness :
    (⟨kpiUriBase rimoDefault rowC7, rimoDefault ++ "mandatoryFor",
      .uri (rimoDefault ++ "Database_portal")⟩ : Triple) ∈ c7ts := by
  exact (mandatory_tristate [] rowC7 c7ts (by decide)).1 (by decide) (by decide)
    [rimoDefault ++ "Database_portal"] (rimoDefault ++ "Database_portal")
    (by decide) (by decide)

/-- C10: a row whose Service Category maps to no category receives
neither a mandatoryFor nor a recommendedFor triple, whatever its
Mandatory cell holds. -/
theorem mandatory_requires_category :
    ∀ g row ts, processRowBase rimoDefault g row = .ok ts →
      toolcat rimoDefault g row.serviceCategory = none →
      ∀ t ∈ ts, t.pred ≠ rimoDefault ++ "mandatoryFor" ∧
        t.pred ≠ rimoDefault ++ "recommendedFor" := by
  intro g row ts h hcat t ht
  have loc := base_pred_localize _ _ _ h t ht
  rw [categoryTriples_none _ _ _ _ hcat] at loc
  rcases loc with hp | hp | hp | hp | hp | hp | hp | hp | hp | hp | hp
  · exact ⟨fun hpred => absurd (hp.symm.trans hpred) (by decide),
           fun hpred => absurd (hp.symm.trans hpred) (by decide)⟩
  · exact ⟨fun hpred => absurd (hp.symm.trans hpred) (by decide),
           fun hpred => absurd (hp.symm.trans hpred) (by decide)⟩
  · exact ⟨fun hpred => absurd (hp.symm.trans hpred) (by decide),
           fun hpred => absurd (hp.symm.trans hpred) (by decide)⟩
  · exact ⟨fun hpred => absurd (hp.symm.trans hpred) (by decide),
           fun hpred => absurd (hp.symm.trans hpred) (by decide)⟩
  · exact ⟨fun hpred => absurd (hp.symm.trans hpred) (by decide),
           fun hpred => absurd (hp.symm.trans hpred) (by decide)⟩
  · exact ⟨fun hpred => absurd (hp.symm.trans hpred) (by decide),
           fun hpred => absurd (hp.symm.trans hpred) (by decide)⟩
  · exact ⟨fun hpred => absurd (hp.symm.trans hpred) (by decide),
           fun hpred => absurd (hp.symm.trans hpred) (by decide)⟩
  · exact ⟨fun hpred => absurd (hp.symm.trans hpred) (by decide),
           fun hpred => absurd (hp.symm.trans hpred) (by decide)⟩
  · exact ⟨fun hpred => absurd (hp.symm.trans hpred) (by decide),
           fun hpred => absurd (hp.symm.trans hpred) (by decide)⟩
  · exact absurd hp (List.not_mem_nil _)
  · have hp2 := linkTriplesBase_pred _ _ _ hp
    exact ⟨fun hpred => absurd (hp2.symm.trans hpred) (by decide),
           fun hpred => absurd (hp2.symm.trans hpred) (by decide)⟩

/-- C10 witness: a row with Mandatory "yes" but unrecognized category
text gets no mandatoryFor/recommendedFor triple (checked on one of its
output triples). -/
theorem mandatory_requires_category_witness :
    (⟨rimoDefault ++ "X", rdfType, .uri (rimoDefault ++ "KPI")⟩ : Triple).pred ≠
      rimoDefault ++ "mandatoryFor" ∧
    (⟨rimoDefault ++ "X", rdfType, .uri (rimoDefault ++ "KPI")⟩ : Triple).pred ≠
      rimoDefault ++ "recommendedFor" := by
  exact mandatory_requires_category [] rowC10 c10ts (by decide) (by decide)
    ⟨rimoDefault ++ "X", rdfType, .uri (rimoDefault ++ "KPI")⟩ (by decide)

/-- C8: the Link cell yields a `dct:relation` URI resource in the
instance builder exactly when its effective string starts with "http"
(otherwise the row output has no relation triple); in the ontology
builder, a link starting with "http" is stored as an
`xsd:anyURI`-typed literal, any non-empty string value not starting
with "http" is stored as an untyped literal, and every stored link
triple is of that untyped form. -/
theorem link_http_rule :
    (∀ g row ts, processRowBase rimoDefault g row = .ok ts → nameOfRow row ≠ "" →
      pyStartsWith (if truthy row.link then pyStr row.link else "") "http" = true →
      (⟨kpiUriBase rimoDefault row, dct ++ "relation",
        .uri (if truthy row.link then pyStr row.link else "")⟩ : Triple) ∈ ts) ∧
    (∀ g row ts, processRowBase rimoDefault g row = .ok ts →
      pyStartsWith (if truthy row.link then pyStr row.link else "") "http" = false →
      ∀ t ∈ ts, t.pred ≠ dct ++ "relation") ∧
    (∀ g row ts ind, processRowOnto g row = .ok ts → row.indicator = .vStr ind →
      pyStartsWith (pyStr row.link) "http" = true →
      (⟨kpiUriOnto ind, propU "link",
        .lit (pyStr row.link) none (some xsdAnyURI)⟩ : Triple) ∈ ts) ∧
    (∀ g row ts ind, processRowOnto g row = .ok ts → row.indicator = .vStr ind →
      pyStartsWith (pyStr row.link) "http" = false →
      ∀ t ∈ ts, t.pred = propU "link" →
        t = ⟨kpiUriOnto ind, propU "link", .lit (pyStr row.link) none none⟩) ∧
    (∀ g row ts ind s, processRowOnto g row = .ok ts → row.indicator = .vStr ind →
      row.link = .vStr s → pyStartsWith s "http" = false → pyStrip s ≠ "" →
      (⟨kpiUriOnto ind, propU "link", .lit s none none⟩ : Triple) ∈ ts) := by
  refine ⟨?_, ?_, ?_, ?_, ?_⟩
  · intro g row ts h hname hstart
    obtain ⟨d0, _, hts⟩ := processRowBase_ok_decomp _ _ _ _ h hname
    subst hts
    have hm : (⟨kpiUriBase rimoDefault row, dct ++ "relation",
        .uri (if truthy row.link then pyStr row.link else "")⟩ : Triple)
        ∈ linkTriplesBase (kpiUriBase rimoDefault row) row := by
      unfold linkTriplesBase
      dsimp only
      simp [hstart]
    exact List.mem_append_right _ hm
  · intro g row ts h hstart t ht hpred
    rcases base_pred_localize _ _ _ h t ht with
      hp | hp | hp | hp | hp | hp | hp | hp | hp | hp | hp
    · exact absurd (hp.symm.trans hpred) (by decide)
    · exact absurd (hp.symm.trans hpred) (by decide)
    · exact absurd (hp.symm.trans hpred) (by decide)
    · exact absurd (hp.symm.trans hpred) (by decide)
    · exact absurd (hp.symm.trans hpred) (by decide)
    · exact absurd (hp.symm.trans hpred) (by decide)
    · exact absurd (hp.symm.trans hpred) (by decide)
    · exact absurd (hp.symm.trans hpred) (by decide)
    · exact absurd (hp.symm.trans hpred) (by decide)
    · obtain ⟨-, hp2⟩ := categoryTriples_pred _ _ _ _ _ hp
      rcases hp2 with hp2 | ⟨hp2, -⟩ | ⟨hp2, -⟩
      · exact absurd (hp2.symm.trans hpred) (by decide)
      · exact absurd (hp2.symm.trans hpred) (by decide)
      · exact absurd (hp2.symm.trans hpred) (by decide)
    · rw [linkTriplesBase_empty _ _ hstart] at hp
      exact absurd hp (List.not_mem_nil _)
  · intro g row ts ind h hind hstart
    obtain ⟨ind2, d0, hind2, _, hts⟩ := processRowOnto_ok_decomp _ _ _ h
    rw [hind] at hind2
    have : ind = ind2 := by cases hind2; rfl
    subst this
    subst hts
    have hm : (⟨kpiUriOnto ind, propU "link",
        .lit (pyStr row.link) none (some xsdAnyURI)⟩ : Triple)
        ∈ linkTriplesOnto (kpiUriOnto ind) row := by
      unfold linkTriplesOnto
      rw [if_pos hstart]
      cases hv : row.link with
      | vNone => rw [hv] at hstart; exact absurd hstart (by decide)
      | vNaN => rw [hv] at hstart; exact absurd hstart (by decide)
      | vStr s =>
        rw [hv] at hstart
        simp only [pyStr] at hstart ⊢
        have hne := pyStrip_ne_of_http s hstart
        simp [add_literal, isna, pyStr, optTruthy, hne, xsdAnyURI]
    unfold ontoRowTriples
    dsimp only
    exact List.mem_append_right _ hm
  · intro g row ts ind h hind hstart t ht hpred
    obtain ⟨ind2, hind2, loc⟩ := onto_pred_localize _ _ _ h t ht
    rw [hind] at hind2
    have : ind = ind2 := by cases hind2; rfl
    subst this
    rcases loc with hp | hp | hp | hp | hp | hp | hp | hp | hp | hp | hp | hp | hp
    · exact absurd (hp.symm.trans hpred) (by decide)
    · exact absurd (hp.symm.trans hpred) (by decide)
    · exact absurd (hp.symm.trans hpred) (by decide)
    · exact absurd (hp.symm.trans hpred) (by decide)
    · have hp2 := svcCatTriples_pred _ _ _ _ hp
      exact absurd (hp2.symm.trans hpred) (by decide)
    · exact absurd (hp.symm.trans hpred) (by decide)
    · exact absurd (hp.symm.trans hpred) (by decide)
    · exact absurd (hp.symm.trans hpred) (by decide)
    · exact absurd (hp.symm.trans hpred) (by decide)
    · exact absurd (hp.symm.trans hpred) (by decide)
    · exact absurd (hp.symm.trans hpred) (by decide)
    · exact absurd (hp.symm.trans hpred) (by decide)
    · unfold linkTriplesOnto at hp
      rw [if_neg (by simp [hstart])] at hp
      unfold add_literal at hp
      split at hp
      · simp [optTruthy] at hp
        exact hp
      · exact absurd hp (List.not_mem_nil _)
  · intro g row ts ind s h hind hlink hstart hne
    obtain ⟨ind2, d0, hind2, _, hts⟩ := processRowOnto_ok_decomp _ _ _ h
    rw [hind] at hind2
    have : ind = ind2 := by cases hind2; rfl
    subst this
    subst hts
    have hm : (⟨kpiUriOnto ind, propU "link", .lit s none none⟩ : Triple)
        ∈ linkTriplesOnto (kpiUriOnto ind) row := by
      unfold linkTriplesOnto
      rw [hlink]
      simp only [pyStr]
      rw [if_neg (by simp [hstart])]
      simp [add_literal, isna, pyStr, optTruthy, hne]
    unfold ontoRowTriples
    dsimp only
    exact List.mem_append_right _ hm

/-- C8 witness: a row with Link "http://example.org" produces the
relation resource in the instance builder and the anyURI-typed literal
in the ontology builder; a row with the non-http Link "see docs" gets
it stored as an untyped literal. -/
theorem link_http_rule_witness :
    (⟨kpiUriBase rimoDefault rowLink, dct ++ "relation",
      .uri (if truthy rowLink.link then pyStr rowLink.link else "")⟩ : Triple) ∈ c8ts ∧
    (⟨kpiUriOnto "X", propU "link",
      .lit (pyStr rowLink.link) none (some xsdAnyURI)⟩ : Triple) ∈ c8tsOnto ∧
    (⟨kpiUriOnto "X", propU "link", .lit "see docs" none none⟩ : Triple)
      ∈ c8tsOntoPlain := by
  refine ⟨?_, ?_, ?_⟩
  · exact link_http_rule.1 [] rowLink c8ts (by decide) (by decide) (by decide)
  · exact link_http_rule.2.2.1 ontoStatic rowLink c8tsOnto "X" (by decide) (by decide)
      (by decide)
  · exact link_http_rule.2.2.2.2 ontoStatic rowLinkPlain c8tsOntoPlain "X" "see docs"
      (by decide) (by decide) (by decide) (by decide) (by decide)

end KPI
